import Mathlib

/-!
Shallow embedding of the calculation engine of src/streamlit_app.py, a
fixed-income comparison calculator.  Python floats are modelled as real
numbers.  Python division raises ZeroDivisionError on a zero denominator,
so it is modelled by the Option-valued pydiv (none is the raised error).
Display-only string formatting (format_currency and the formatted table
columns of the scenario dictionaries) and the UI widgets are out of scope;
the widget range constraints appear only as hypotheses of theorems.
-/

/-- The two values of the investment-type radio widgets of both tabs
(Tributavel and Isento, lines 55-59 and 425-429 of streamlit_app.py). -/
inductive InvestmentType
  | tributavel
  | isento
deriving DecidableEq

/-- The two values of the return-type radio widgets of both tabs
(percent-of-CDI and pre-fixed, lines 62-66 and 432-436). -/
inductive ReturnType
  | cdi
  | pre_fixado
deriving DecidableEq

/-- Python float division as used by the source: it raises
ZeroDivisionError when the denominator is zero, modelled as none. -/
noncomputable def pydiv (a b : ℝ) : Option ℝ :=
  if b = 0 then none else some (a / b)

/-- Lines 6-13: default_tax_rate, the category override used by tab 1. -/
noncomputable def default_tax_rate (tax_rate_old : ℝ) (investment_type : InvestmentType) :
    ℝ × ℝ :=
  match investment_type with
  | .tributavel => (tax_rate_old, 0.175)
  | .isento => (0.0, 0.05)

/-- Lines 15-17: calculate_compound_return.  The exponent days / 365 is
real division, as in the source (Python true division). -/
noncomputable def calculate_compound_return (rate : ℝ) (days : ℝ) : ℝ :=
  (1 + rate / 100) ^ (days / 365) - 1

/-- Lines 121-128: the tab-1 regressive bracket table for the current
regime. -/
noncomputable def tax_rate_old (term_input : ℤ) : ℝ :=
  if term_input ≥ 720 then 0.15
  else if term_input ≥ 360 then 0.175
  else if term_input ≥ 180 then 0.2
  else 0.225

/-- Lines 133-138 (tab 1) and 488-493 (tab 2): the gross annual rate
derived from the return specification. -/
noncomputable def total_rate_gross (return_type : ReturnType)
    (investment_return cdi_value : ℝ) : ℝ :=
  match return_type with
  | .cdi => investment_return / 100 * cdi_value
  | .pre_fixado => investment_return

/-- Lines 133-138 (tab 1) and 488-493 (tab 2): the percent-of-CDI figure.
In the pre-fixed branch the source divides by cdi_value unconditionally,
which raises ZeroDivisionError when cdi_value is 0. -/
noncomputable def cdi_percentage (return_type : ReturnType)
    (investment_return cdi_value : ℝ) : Option ℝ :=
  match return_type with
  | .cdi => some investment_return
  | .pre_fixado => Option.map (fun q => q * 100) (pydiv investment_return cdi_value)

/-- Line 141: the gross compounded period return of tab 1. -/
noncomputable def gross_return_period (total_rate : ℝ) (term_input : ℤ) : ℝ :=
  calculate_compound_return total_rate (term_input : ℝ)

/-- Line 142. -/
noncomputable def net_return_old_period (total_rate : ℝ) (term_input : ℤ) (t_old : ℝ) : ℝ :=
  gross_return_period total_rate term_input * (1 - t_old)

/-- Line 143. -/
noncomputable def net_return_new_period (total_rate : ℝ) (term_input : ℤ) (t_new : ℝ) : ℝ :=
  gross_return_period total_rate term_input * (1 - t_new)

/-- Line 146. -/
noncomputable def final_amount_gross (initial_investment total_rate : ℝ)
    (term_input : ℤ) : ℝ :=
  initial_investment * (1 + gross_return_period total_rate term_input)

/-- Line 147. -/
noncomputable def final_amount_net_old (initial_investment total_rate : ℝ)
    (term_input : ℤ) (t_old : ℝ) : ℝ :=
  initial_investment * (1 + net_return_old_period total_rate term_input t_old)

/-- Line 148. -/
noncomputable def final_amount_net_new (initial_investment total_rate : ℝ)
    (term_input : ℤ) (t_new : ℝ) : ℝ :=
  initial_investment * (1 + net_return_new_period total_rate term_input t_new)

/-- Lines 532-539: the tab-2 copy of the bracket table (the source
duplicates the tab-1 logic verbatim). -/
noncomputable def current_tax_rate (days : ℤ) : ℝ :=
  if days ≥ 720 then 0.15
  else if days ≥ 360 then 0.175
  else if days ≥ 180 then 0.2
  else 0.225

/-- Lines 542-547: the tab-2 inline category override; the else branch of
the source is the Isento case. -/
noncomputable def scenario_tax (scenario_investment_type : InvestmentType)
    (current : ℝ) : ℝ × ℝ :=
  match scenario_investment_type with
  | .tributavel => (current, 0.175)
  | .isento => (0.0, 0.05)

/-- Line 560: percent-of-CDI equivalent of the gross annual rate
(unconditional division in the source). -/
noncomputable def cdi_gross (gross_annual_rate scenario_cdi_value : ℝ) : Option ℝ :=
  Option.map (fun q => q * 100) (pydiv gross_annual_rate scenario_cdi_value)

/-- Line 561. -/
noncomputable def cdi_net_old (net_annual_old scenario_cdi_value : ℝ) : Option ℝ :=
  Option.map (fun q => q * 100) (pydiv net_annual_old scenario_cdi_value)

/-- Line 562. -/
noncomputable def cdi_net_new (net_annual_new scenario_cdi_value : ℝ) : Option ℝ :=
  Option.map (fun q => q * 100) (pydiv net_annual_new scenario_cdi_value)

/-- The numeric quantities computed for one scenario row of the tab-2 loop
(lines 530-606).  The formatted display strings of the dictionary are
presentation only and omitted. -/
structure ScenarioResult where
  dias : ℤ
  tax_old : ℝ
  tax_new : ℝ
  gross_return_period : ℝ
  net_return_old_period : ℝ
  net_return_new_period : ℝ
  gross_annual_rate : ℝ
  net_annual_old : ℝ
  net_annual_new : ℝ
  cdi_gross : ℝ
  cdi_net_old : ℝ
  cdi_net_new : ℝ
  final_gross : ℝ
  final_net_old : ℝ
  final_net_new : ℝ
  difference : ℝ
  difference_pct : ℝ

/-- Lines 530-606: the body of the tab-2 scenario loop for one value of
days.  The result is none exactly when the percent-of-CDI conversions of
lines 560-562 raise ZeroDivisionError, which aborts the whole loop. -/
noncomputable def scenario_row (scenario_investment_type : InvestmentType)
    (scenario_initial_investment scenario_total_rate_gross scenario_cdi_value : ℝ)
    (days : ℤ) : Option ScenarioResult :=
  let t := scenario_tax scenario_investment_type (current_tax_rate days)
  let tax_old := t.1
  let tax_new := t.2
  let gross_return_period := calculate_compound_return scenario_total_rate_gross (days : ℝ)
  let net_return_old_period := gross_return_period * (1 - tax_old)
  let net_return_new_period := gross_return_period * (1 - tax_new)
  let gross_annual_rate := scenario_total_rate_gross
  let net_annual_old := gross_annual_rate * (1 - tax_old)
  let net_annual_new := gross_annual_rate * (1 - tax_new)
  Option.bind (cdi_gross gross_annual_rate scenario_cdi_value) (fun cg =>
  Option.bind (cdi_net_old net_annual_old scenario_cdi_value) (fun co =>
  Option.map (fun cn =>
    let final_gross := scenario_initial_investment * (1 + gross_return_period)
    let final_net_old := scenario_initial_investment * (1 + net_return_old_period)
    let final_net_new := scenario_initial_investment * (1 + net_return_new_period)
    let difference := final_net_new - final_net_old
    let difference_pct := if final_net_old > 0 then difference / final_net_old * 100 else 0
    { dias := days
      tax_old := tax_old
      tax_new := tax_new
      gross_return_period := gross_return_period
      net_return_old_period := net_return_old_period
      net_return_new_period := net_return_new_period
      gross_annual_rate := gross_annual_rate
      net_annual_old := net_annual_old
      net_annual_new := net_annual_new
      cdi_gross := cg
      cdi_net_old := co
      cdi_net_new := cn
      final_gross := final_gross
      final_net_old := final_net_old
      final_net_new := final_net_new
      difference := difference
      difference_pct := difference_pct })
    (cdi_net_new net_annual_new scenario_cdi_value)))

/-- Lines 526-606: the scenario loop over the caller-supplied term list,
in order. -/
noncomputable def evaluateScenarios (scenario_investment_type : InvestmentType)
    (scenario_initial_investment scenario_total_rate_gross scenario_cdi_value : ℝ)
    (scenarios_days : List ℤ) : Option (List ScenarioResult) :=
  scenarios_days.mapM (scenario_row scenario_investment_type scenario_initial_investment
    scenario_total_rate_gross scenario_cdi_value)

/-- Python builtin max with a key function over a nonempty sequence, as
used on line 889: scan left to right, replace the champion only on strict
improvement, so ties keep the earliest element. -/
def pymax {α β : Type _} [LinearOrder β] (key : α → β) (x : α) (xs : List α) : α :=
  xs.foldl (fun b a => if key b < key a then a else b) x

/-- Python builtin min with a key function, as used on line 890. -/
def pymin {α β : Type _} [LinearOrder β] (key : α → β) (x : α) (xs : List α) : α :=
  xs.foldl (fun b a => if key a < key b then a else b) x

/-- Lines 526 and 889: best-scenario selection by the stored difference,
skipped (none) when the scenario list is empty because the guard on line
526 skips the whole block. -/
noncomputable def best_scenario (data : List ScenarioResult) : Option ScenarioResult :=
  match data with
  | [] => none
  | x :: xs => some (pymax (fun r => r.difference) x xs)

/-- Lines 526 and 890: worst-scenario selection. -/
noncomputable def worst_scenario (data : List ScenarioResult) : Option ScenarioResult :=
  match data with
  | [] => none
  | x :: xs => some (pymin (fun r => r.difference) x xs)

/-- Refinement comparison for C3: the compound-return contract transcribed
from the words of section 4.2 of the specification. -/
noncomputable def compoundReturn_spec (annualRatePercent days : ℝ) : ℝ :=
  (1 + annualRatePercent / 100) ^ (days / 365) - 1

/-- A scenario record with a given difference and zeros elsewhere, used
only to instantiate selection theorems on concrete lists. -/
noncomputable def srOfDiff (d : ℝ) : ScenarioResult :=
  ⟨0, 0, 0, 0, 0, 0, 0, 0, 0, 0, 0, 0, 0, 0, 0, d, 0⟩

/-- The concrete scenario row produced by the loop body at investment type
Tributavel, principal 10000, gross rate 0, CDI 100 and term 30 days. -/
noncomputable def rowC8 : ScenarioResult :=
  ⟨30, 0.225, 0.175, 0, 0, 0, 0, 0, 0, 0, 0, 0, 10000, 10000, 10000, 0, 0⟩

theorem pymax_cons {α β : Type _} [LinearOrder β] (key : α → β) (x a : α) (xs : List α) :
    pymax key x (a :: xs) = pymax key (if key x < key a then a else x) xs := rfl

theorem pymin_cons {α β : Type _} [LinearOrder β] (key : α → β) (x a : α) (xs : List α) :
    pymin key x (a :: xs) = pymin key (if key a < key x then a else x) xs := rfl

theorem pymax_mem {α β : Type _} [LinearOrder β] (key : α → β) (x : α) (xs : List α) :
    pymax key x xs ∈ x :: xs := by
  induction xs generalizing x with
  | nil => simp [pymax]
  | cons a t ih =>
    rw [pymax_cons]
    rcases List.mem_cons.mp (ih (if key x < key a then a else x)) with h1 | h1
    · rw [h1]
      split
      · exact List.mem_cons_of_mem _ (List.mem_cons_self _ _)
      · exact List.mem_cons_self _ _
    · exact List.mem_cons_of_mem _ (List.mem_cons_of_mem _ h1)

theorem pymin_mem {α β : Type _} [LinearOrder β] (key : α → β) (x : α) (xs : List α) :
    pymin key x xs ∈ x :: xs := by
  induction xs generalizing x with
  | nil => simp [pymin]
  | cons a t ih =>
    rw [pymin_cons]
    rcases List.mem_cons.mp (ih (if key a < key x then a else x)) with h1 | h1
    · rw [h1]
      split
      · exact List.mem_cons_of_mem _ (List.mem_cons_self _ _)
      · exact List.mem_cons_self _ _
    · exact List.mem_cons_of_mem _ (List.mem_cons_of_mem _ h1)

theorem pymax_le {α β : Type _} [LinearOrder β] (key : α → β) (x : α) (xs : List α) :
    ∀ y ∈ x :: xs, key y ≤ key (pymax key x xs) := by
  induction xs generalizing x with
  | nil =>
    intro y hy
    rcases List.mem_cons.mp hy with rfl | h
    · exact le_rfl
    · exact absurd h (List.not_mem_nil y)
  | cons a t ih =>
    intro y hy
    rw [pymax_cons]
    have hx : key x ≤ key (if key x < key a then a else x) := by
      split
      · exact le_of_lt (by assumption)
      · exact le_rfl
    have ha : key a ≤ key (if key x < key a then a else x) := by
      split
      · exact le_rfl
      · exact le_of_not_lt (by assumption)
    have hhead := ih (if key x < key a then a else x) _ (List.mem_cons_self _ _)
    rcases List.mem_cons.mp hy with rfl | hy2
    · exact le_trans hx hhead
    · rcases List.mem_cons.mp hy2 with rfl | hy3
      · exact le_trans ha hhead
      · exact ih _ y (List.mem_cons_of_mem _ hy3)

theorem pymin_le {α β : Type _} [LinearOrder β] (key : α → β) (x : α) (xs : List α) :
    ∀ y ∈ x :: xs, key (pymin key x xs) ≤ key y := by
  induction xs generalizing x with
  | nil =>
    intro y hy
    rcases List.mem_cons.mp hy with rfl | h
    · exact le_rfl
    · exact absurd h (List.not_mem_nil y)
  | cons a t ih =>
    intro y hy
    rw [pymin_cons]
    have hx : key (if key a < key x then a else x) ≤ key x := by
      split
      · exact le_of_lt (by assumption)
      · exact le_rfl
    have ha : key (if key a < key x then a else x) ≤ key a := by
      split
      · exact le_rfl
      · exact le_of_not_lt (by assumption)
    have hhead := ih (if key a < key x then a else x) _ (List.mem_cons_self _ _)
    rcases List.mem_cons.mp hy with rfl | hy2
    · exact le_trans hhead hx
    · rcases List.mem_cons.mp hy2 with rfl | hy3
      · exact le_trans hhead ha
      · exact ih _ y (List.mem_cons_of_mem _ hy3)

theorem pymax_find {α β : Type _} [LinearOrder β] (key : α → β) (x : α) (xs : List α) :
    (x :: xs).find? (fun a => decide (key (pymax key x xs) ≤ key a)) =
      some (pymax key x xs) := by
  induction xs generalizing x with
  | nil =>
    have hx : pymax key x ([] : List α) = x := rfl
    rw [hx, List.find?_cons_of_pos _ (by simp)]
  | cons a t ih =>
    rw [pymax_cons]
    by_cases hxa : key x < key a
    · rw [if_pos hxa]
      have ham : key a ≤ key (pymax key a t) := pymax_le key a t a (List.mem_cons_self a t)
      have hxm : ¬ key (pymax key a t) ≤ key x := not_le.mpr (lt_of_lt_of_le hxa ham)
      rw [List.find?_cons_of_neg _ (by simpa using hxm)]
      exact ih a
    · rw [if_neg hxa]
      have ihx := ih x
      by_cases hpx : key (pymax key x t) ≤ key x
      · rw [List.find?_cons_of_pos _ (by simpa using hpx)] at ihx ⊢
        exact ihx
      · have hax : key a ≤ key x := le_of_not_lt hxa
        have hxm : key x < key (pymax key x t) := lt_of_not_le hpx
        have hpa : ¬ key (pymax key x t) ≤ key a := not_le.mpr (lt_of_le_of_lt hax hxm)
        rw [List.find?_cons_of_neg _ (by simpa using hpx)] at ihx
        rw [List.find?_cons_of_neg _ (by simpa using hpx),
          List.find?_cons_of_neg _ (by simpa using hpa)]
        exact ihx

theorem pymin_find {α β : Type _} [LinearOrder β] (key : α → β) (x : α) (xs : List α) :
    (x :: xs).find? (fun a => decide (key a ≤ key (pymin key x xs))) =
      some (pymin key x xs) := by
  induction xs generalizing x with
  | nil =>
    have hx : pymin key x ([] : List α) = x := rfl
    rw [hx, List.find?_cons_of_pos _ (by simp)]
  | cons a t ih =>
    rw [pymin_cons]
    by_cases hxa : key a < key x
    · rw [if_pos hxa]
      have ham : key (pymin key a t) ≤ key a := pymin_le key a t a (List.mem_cons_self a t)
      have hxm : ¬ key x ≤ key (pymin key a t) := not_le.mpr (lt_of_le_of_lt ham hxa)
      rw [List.find?_cons_of_neg _ (by simpa using hxm)]
      exact ih a
    · rw [if_neg hxa]
      have ihx := ih x
      by_cases hpx : key x ≤ key (pymin key x t)
      · rw [List.find?_cons_of_pos _ (by simpa using hpx)] at ihx ⊢
        exact ihx
      · have hax : key x ≤ key a := le_of_not_lt hxa
        have hxm : key (pymin key x t) < key x := lt_of_not_le hpx
        have hpa : ¬ key a ≤ key (pymin key x t) := not_le.mpr (lt_of_lt_of_le hxm hax)
        rw [List.find?_cons_of_neg _ (by simpa using hpx)] at ihx
        rw [List.find?_cons_of_neg _ (by simpa using hpx),
          List.find?_cons_of_neg _ (by simpa using hpa)]
        exact ihx

/-- C1: for every term of at least one day, both copies of the bracket
resolver return 0.15 from 720 days on, 0.175 from 360 to 719 days, 0.20
from 180 to 359 days and 0.225 below 180 days, and the Taxable category
override passes this bracket rate through unchanged. -/
theorem c1_bracket_rates (d : ℤ) (h : 1 ≤ d) :
    (720 ≤ d → tax_rate_old d = 0.15 ∧ current_tax_rate d = 0.15) ∧
    (360 ≤ d → d < 720 → tax_rate_old d = 0.175 ∧ current_tax_rate d = 0.175) ∧
    (180 ≤ d → d < 360 → tax_rate_old d = 0.2 ∧ current_tax_rate d = 0.2) ∧
    (d < 180 → tax_rate_old d = 0.225 ∧ current_tax_rate d = 0.225) ∧
    (default_tax_rate (tax_rate_old d) InvestmentType.tributavel).1 = tax_rate_old d := by
  unfold tax_rate_old current_tax_rate default_tax_rate
  refine ⟨fun h720 => ?_, fun h360 h720 => ?_, fun h180 h360 => ?_, fun h180 => ?_, rfl⟩ <;>
    split_ifs <;> first
      | exact ⟨rfl, rfl⟩
      | omega

/-- Witness for C1 at a concrete term of 800 days. -/
theorem c1_bracket_rates_witness :
    (1 : ℤ) ≤ 800 ∧ (tax_rate_old 800 = 0.15 ∧ current_tax_rate 800 = 0.15) :=
  ⟨by decide, (c1_bracket_rates 800 (by decide)).1 (by decide)⟩

/-- C2: the category override gives Taxable the bracket rate unchanged and
a new-regime rate of 0.175, and gives TaxExempt an old rate of 0 and a new
rate of 0.05, independent of the term, in both tabs. -/
theorem c2_category_override (rate : ℝ) (d : ℤ) :
    default_tax_rate rate InvestmentType.tributavel = (rate, 0.175) ∧
    default_tax_rate rate InvestmentType.isento = (0.0, 0.05) ∧
    scenario_tax InvestmentType.tributavel (current_tax_rate d) = (current_tax_rate d, 0.175) ∧
    scenario_tax InvestmentType.isento (current_tax_rate d) = (0.0, 0.05) :=
  ⟨rfl, rfl, rfl, rfl⟩

/-- C3: calculate_compound_return agrees with the specification formula
(1 + rate / 100) ^ (days / 365) - 1 for every rate and positive days; at
365 days the exponent is one, so the result is rate / 100, and a zero rate
gives a zero period return for any days. -/
theorem c3_compound_return (rate days : ℝ) (hd : 0 < days) :
    calculate_compound_return rate days = compoundReturn_spec rate days ∧
    calculate_compound_return rate 365 = rate / 100 ∧
    calculate_compound_return 0 days = 0 := by
  refine ⟨rfl, ?_, ?_⟩
  · show (1 + rate / 100) ^ ((365 : ℝ) / 365) - 1 = rate / 100
    rw [show ((365 : ℝ) / 365) = 1 by norm_num, Real.rpow_one]
    ring
  · show (1 + (0 : ℝ) / 100) ^ (days / 365) - 1 = 0
    norm_num

/-- Witness for C3 at rate 0 and a term of 365 days. -/
theorem c3_compound_return_witness :
    (0 : ℝ) < 365 ∧ calculate_compound_return 0 365 = compoundReturn_spec 0 365 :=
  ⟨by norm_num, (c3_compound_return 0 365 (by norm_num)).1⟩

/-- C4 counterexample: at annual rate -200 percent (at or below -100) and
365 days the engine does not reject the input and reports no error; it
silently computes the value -2. -/
theorem c4_no_rejection_counterexample :
    calculate_compound_return (-200) 365 = -2 := by
  unfold calculate_compound_return
  rw [show ((365 : ℝ) / 365) = 1 by norm_num, Real.rpow_one]
  norm_num

/-- C4 amended: the engine has no rate-domain guard and computes the
compound-return formula unconditionally for every rate; the interface
boundary keeps both rate inputs nonnegative, which makes the derived gross
annual rate nonnegative, so rates at or below -100 percent never reach the
engine from the interface. -/
theorem c4_amended_no_guard (rt : ReturnType) (investment_return cdi_value days : ℝ)
    (hr : 0 ≤ investment_return) (hc : 0 ≤ cdi_value) :
    0 ≤ total_rate_gross rt investment_return cdi_value ∧
    calculate_compound_return (total_rate_gross rt investment_return cdi_value) days =
      (1 + total_rate_gross rt investment_return cdi_value / 100) ^ (days / 365) - 1 := by
  refine ⟨?_, rfl⟩
  cases rt with
  | cdi => exact mul_nonneg (div_nonneg hr (by norm_num)) hc
  | pre_fixado => exact hr

/-- Witness for the amended C4 at a return of 100 percent of a CDI of
10 percent. -/
theorem c4_amended_no_guard_witness :
    (0 : ℝ) ≤ 100 ∧ (0 : ℝ) ≤ 10 ∧ 0 ≤ total_rate_gross ReturnType.cdi 100 10 :=
  ⟨by norm_num, by norm_num,
    (c4_amended_no_guard ReturnType.cdi 100 10 365 (by norm_num) (by norm_num)).1⟩

/-- C5 counterexample: with a CDI annual rate of 0 the percent-of-CDI
conversions abort with a division-by-zero error (modelled by none) instead
of returning a defined sentinel value. -/
theorem c5_sentinel_counterexample :
    cdi_percentage ReturnType.pre_fixado 14 0 = none ∧
    cdi_gross 10 0 = none ∧ cdi_net_old 10 0 = none ∧ cdi_net_new 10 0 = none := by
  refine ⟨?_, ?_, ?_, ?_⟩ <;>
    simp [cdi_percentage, cdi_gross, cdi_net_old, cdi_net_new, pydiv]

/-- C5 amended: every percent-of-CDI conversion divides unconditionally,
so a CDI annual rate of 0 raises ZeroDivisionError (no sentinel value is
produced), while a nonzero CDI annual rate yields the plain quotient times
100. -/
theorem c5_amended_division (r c : ℝ) :
    (c = 0 → cdi_percentage ReturnType.pre_fixado r c = none ∧ cdi_gross r c = none ∧
      cdi_net_old r c = none ∧ cdi_net_new r c = none) ∧
    (c ≠ 0 → cdi_percentage ReturnType.pre_fixado r c = some (r / c * 100)) := by
  constructor
  · intro h
    subst h
    refine ⟨?_, ?_, ?_, ?_⟩ <;>
      simp [cdi_percentage, cdi_gross, cdi_net_old, cdi_net_new, pydiv]
  · intro h
    simp [cdi_percentage, pydiv, h]

/-- Witness for the amended C5 at a pre-fixed rate of 14 and a CDI of 7. -/
theorem c5_amended_division_witness :
    cdi_percentage ReturnType.pre_fixado 14 7 = some (14 / 7 * 100) :=
  (c5_amended_division 14 7).2 (by norm_num)

/-- C6: the empty term list yields the empty result sequence, and both the
best-scenario and the worst-scenario selections are skipped (no value is
computed), with no failure. -/
theorem c6_empty_scenarios (t : InvestmentType) (inv trg cdi : ℝ) :
    evaluateScenarios t inv trg cdi [] = some [] ∧
    best_scenario [] = none ∧ worst_scenario [] = none :=
  ⟨rfl, rfl, rfl⟩

/-- C7: on every nonempty scenario list the selections are the pymax and
pymin reductions keyed by the stored difference, the chosen best element
is in the list with a maximal difference and is the first element of the
list attaining it, dually for the worst element, and the stored difference
of every computed row is exactly its new-regime final amount minus its
old-regime final amount. -/
theorem c7_best_worst_selection (x : ScenarioResult) (xs : List ScenarioResult)
    (ty : InvestmentType) (sinv strg scdi : ℝ) (sd : ℤ) :
    best_scenario (x :: xs) = some (pymax (fun r => r.difference) x xs) ∧
    worst_scenario (x :: xs) = some (pymin (fun r => r.difference) x xs) ∧
    pymax (fun r => r.difference) x xs ∈ x :: xs ∧
    (∀ y ∈ x :: xs, y.difference ≤ (pymax (fun r => r.difference) x xs).difference) ∧
    (x :: xs).find?
        (fun a => decide ((pymax (fun r => r.difference) x xs).difference ≤ a.difference)) =
      some (pymax (fun r => r.difference) x xs) ∧
    pymin (fun r => r.difference) x xs ∈ x :: xs ∧
    (∀ y ∈ x :: xs, (pymin (fun r => r.difference) x xs).difference ≤ y.difference) ∧
    (x :: xs).find?
        (fun a => decide (a.difference ≤ (pymin (fun r => r.difference) x xs).difference)) =
      some (pymin (fun r => r.difference) x xs) ∧
    Option.map (fun r => r.difference) (scenario_row ty sinv strg scdi sd) =
      Option.map (fun r => r.final_net_new - r.final_net_old)
        (scenario_row ty sinv strg scdi sd) := by
  refine ⟨rfl, rfl, pymax_mem _ x xs, pymax_le _ x xs, pymax_find _ x xs,
    pymin_mem _ x xs, pymin_le _ x xs, pymin_find _ x xs, ?_⟩
  by_cases hc : scdi = 0
  · simp [scenario_row, cdi_gross, cdi_net_old, cdi_net_new, pydiv, hc]
  · simp [scenario_row, cdi_gross, cdi_net_old, cdi_net_new, pydiv, hc]

/-- Witness for C7: on a concrete list whose differences are 1, 2, 2 the
best selection returns the first of the two tied maximal rows and the
worst selection returns the unique minimal row. -/
theorem c7_best_worst_selection_witness :
    best_scenario [srOfDiff 1, srOfDiff 2, srOfDiff 2] = some (srOfDiff 2) ∧
    worst_scenario [srOfDiff 1, srOfDiff 2, srOfDiff 2] = some (srOfDiff 1) := by
  have h := c7_best_worst_selection (srOfDiff 1) [srOfDiff 2, srOfDiff 2]
    InvestmentType.tributavel 0 0 1 1
  have hmax : pymax (fun r : ScenarioResult => r.difference) (srOfDiff 1)
      [srOfDiff 2, srOfDiff 2] = srOfDiff 2 := by
    norm_num [pymax, srOfDiff, List.foldl]
  have hmin : pymin (fun r : ScenarioResult => r.difference) (srOfDiff 1)
      [srOfDiff 2, srOfDiff 2] = srOfDiff 1 := by
    norm_num [pymin, srOfDiff, List.foldl]
  have h1 := h.1
  have h2 := h.2.1
  rw [hmax] at h1
  rw [hmin] at h2
  exact ⟨h1, h2⟩

/-- C8: in both tabs every net period return is the gross period return
times one minus the tax rate of its regime, every final amount is the
principal times one plus the period return of its variant, and each net
final amount equals the gross final amount minus the tax rate applied to
the gain only, so the tax never touches the principal. -/
theorem c8_net_and_final_amounts (inv trg : ℝ) (term : ℤ) (t_old t_new : ℝ)
    (ty : InvestmentType) (sinv strg scdi : ℝ) (d : ℤ) (r : ScenarioResult)
    (hrow : scenario_row ty sinv strg scdi d = some r) :
    net_return_old_period trg term t_old = gross_return_period trg term * (1 - t_old) ∧
    net_return_new_period trg term t_new = gross_return_period trg term * (1 - t_new) ∧
    final_amount_gross inv trg term = inv * (1 + gross_return_period trg term) ∧
    final_amount_net_old inv trg term t_old = inv * (1 + net_return_old_period trg term t_old) ∧
    final_amount_net_new inv trg term t_new = inv * (1 + net_return_new_period trg term t_new) ∧
    final_amount_net_old inv trg term t_old =
      final_amount_gross inv trg term - (final_amount_gross inv trg term - inv) * t_old ∧
    final_amount_net_new inv trg term t_new =
      final_amount_gross inv trg term - (final_amount_gross inv trg term - inv) * t_new ∧
    r.net_return_old_period = r.gross_return_period * (1 - r.tax_old) ∧
    r.net_return_new_period = r.gross_return_period * (1 - r.tax_new) ∧
    r.final_gross = sinv * (1 + r.gross_return_period) ∧
    r.final_net_old = sinv * (1 + r.net_return_old_period) ∧
    r.final_net_new = sinv * (1 + r.net_return_new_period) ∧
    r.final_net_old = r.final_gross - (r.final_gross - sinv) * r.tax_old ∧
    r.final_net_new = r.final_gross - (r.final_gross - sinv) * r.tax_new := by
  by_cases hc : scdi = 0
  · simp [scenario_row, cdi_gross, cdi_net_old, cdi_net_new, pydiv, hc] at hrow
  · simp [scenario_row, cdi_gross, cdi_net_old, cdi_net_new, pydiv, hc] at hrow
    subst hrow
    refine ⟨rfl, rfl, rfl, rfl, rfl, ?_, ?_, ?_, ?_, ?_, ?_, ?_, ?_, ?_⟩
    · unfold final_amount_net_old final_amount_gross net_return_old_period
        gross_return_period
      ring
    · unfold final_amount_net_new final_amount_gross net_return_new_period
        gross_return_period
      ring
    · simp
    · simp
    · simp
    · simp
    · simp
    · simp
      ring
    · simp
      ring

/-- Witness for C8, applying it at a concrete scenario row (Tributavel,
principal 10000, gross rate 0, CDI 100, 30 days). -/
theorem c8_net_and_final_amounts_witness :
    net_return_old_period 7 90 0.2 = gross_return_period 7 90 * (1 - 0.2) :=
  (c8_net_and_final_amounts 10000 7 90 0.2 0.175 InvestmentType.tributavel 10000 0 100 30
    rowC8 (by norm_num [scenario_row, scenario_tax, current_tax_rate, cdi_gross,
      cdi_net_old, cdi_net_new, pydiv, calculate_compound_return, rowC8, Real.one_rpow])).1

/-- C9: converting a flat pre-fixed annual rate to a percent-of-CDI figure
and reading that figure back through the percent-of-CDI rate
interpretation returns the original rate exactly, for every positive CDI
annual rate. -/
theorem c9_round_trip (R C : ℝ) (hC : 0 < C) :
    Option.map (fun p => total_rate_gross ReturnType.cdi p C)
        (cdi_percentage ReturnType.pre_fixado R C) = some R := by
  have hC0 : C ≠ 0 := ne_of_gt hC
  simp [cdi_percentage, total_rate_gross, pydiv, hC0]

/-- Witness for C9 at a flat rate of 14 and a CDI of 10. -/
theorem c9_round_trip_witness :
    (0 : ℝ) < 10 ∧ Option.map (fun p => total_rate_gross ReturnType.cdi p 10)
      (cdi_percentage ReturnType.pre_fixado 14 10) = some 14 :=
  ⟨by norm_num, c9_round_trip 14 10 (by norm_num)⟩

/-- C10: the bracket rate is monotonically non-increasing in the term, in
both copies of the bracket table. -/
theorem c10_bracket_monotone (d1 d2 : ℤ) (h1 : 1 ≤ d1) (h12 : d1 ≤ d2) :
    tax_rate_old d2 ≤ tax_rate_old d1 ∧ current_tax_rate d2 ≤ current_tax_rate d1 := by
  unfold tax_rate_old current_tax_rate
  constructor <;> split_ifs <;> first
    | omega
    | norm_num

/-- Witness for C10 at terms of 100 and 800 days. -/
theorem c10_bracket_monotone_witness :
    (1 : ℤ) ≤ 100 ∧ (100 : ℤ) ≤ 800 ∧ tax_rate_old 800 ≤ tax_rate_old 100 :=
  ⟨by decide, by decide, (c10_bracket_monotone 100 800 (by decide) (by decide)).1⟩
